import Mathlib

/-
Verification of the batch sealing state machine in
src/damocles-worker/src/sealing/sealing_thread/planner/batch.rs.

The development is a shallow embedding: the pipeline `State` and `Event`
types, the pure transition function `plan`, the per-state dispatch of
`exec`, the guard of `Event::apply`, and the result-interpretation and
polling-loop logic of the `BatchSealer` actions are translated into Lean
definitions, faithfully arm by arm.  Types that come from modules outside
the provided sources (rpc::sealer, sealing::failure, the sectors
submodule) are modelled from the specification, and their doc comments say
so.  Rust `usize` arithmetic appears only as `batch_size - 1` and
`index - 1` guarded by `index > 0`; both agree with truncated `Nat`
subtraction for `batch_size >= 1`, which the theorems assume where it
matters.
-/

namespace Batch

/-- Modelled from the spec: the externally-assigned sector identifier
(type `SectorID` from rpc::sealer, not among the provided sources);
batch.rs uses its `miner` and `number` fields. -/
structure SectorID where
  miner : Nat
  number : Nat
deriving DecidableEq

/-- Modelled from the spec: a sector assignment returned by
`allocate_sectors_batch` (rpc::sealer); batch.rs uses only its `id`. -/
structure AllocatedSector where
  id : SectorID
deriving DecidableEq

/-- Modelled from the spec: one deal descriptor; batch.rs uses only its
`id` (line 444). -/
structure Deal where
  id : Nat
deriving DecidableEq

/-- Modelled from the spec: optional list of deal descriptors attached to
a sector. -/
def Deals := List Deal

/-- Modelled from the spec: a piece descriptor; opaque to the batch
planner, which never inspects it. -/
structure PieceInfo where
  token : Nat

/-- Modelled from the spec: chain-supplied randomness
`Ticket(value, epoch)` (rpc::sealer). -/
structure Ticket where
  ticket : List Nat
  epoch : Int

/-- Modelled from the spec: chain-supplied randomness consumed at the
commit phase (rpc::sealer `Seed`); opaque to the batch planner. -/
structure Seed where
  seed : List Nat

/-- Modelled from the spec: PC1 output of the proving backend; opaque to
the batch planner. -/
structure SealPreCommitPhase1Output where
  token : Nat

/-- Modelled from the spec: PC2 output of the proving backend; batch.rs
uses its `comm_r` and `comm_d` commitments (line 439), modelled as
abstract numbers. -/
structure SealPreCommitPhase2Output where
  comm_r : Nat
  comm_d : Nat

/-- Modelled from the spec: C1 output of the proving backend; opaque to
the batch planner. -/
structure SealCommitPhase1Output where
  token : Nat

/-- Modelled from the spec: C2 output of the proving backend; batch.rs
uses its `proof` bytes (line 600), modelled as abstract numbers. -/
structure SealCommitPhase2Output where
  proof : List Nat

/-- Modelled from the spec: per-sector `Base` from the sectors submodule
(not among the provided sources); fields as constructed in batch.rs lines
127-130. -/
structure Base where
  allocated : AllocatedSector
  prove_input : Nat × Nat

/-- The pipeline states of the batch state machine (batch.rs lines
59-79), verbatim: most phases carry the sector index the phase has
reached. -/
inductive State where
  | Empty
  | Allocated
  | DealsAcquired (index : Nat)
  | PieceAdded (index : Nat)
  | TreeDBuilt (index : Nat)
  | TicketAssigned
  | PC1Done
  | PC2Done
  | PCSubmitted (index : Nat)
  | PCLanded (index : Nat)
  | Persisted (index : Nat)
  | PersistanceSubmitted (index : Nat)
  | SeedAssigned (index : Nat)
  | C1Done
  | C2Done (index : Nat)
  | ProofSubmitted (index : Nat)
  | Finished (index : Nat)
  | Aborted
deriving DecidableEq

/-- The events of the batch state machine (batch.rs lines 82-104),
verbatim. -/
inductive Event where
  | SetState (s : State)
  | Idle
  | Allocate (sectors : List AllocatedSector)
  | AcquireDeals (index : Nat) (deals : Option Deals)
  | AddPiece (index : Nat) (pieces : List PieceInfo)
  | BuildTreeD (index : Nat)
  | AssignTicket (t : Ticket)
  | PC1 (t : Ticket) (out : List SealPreCommitPhase1Output)
  | PC2 (out : List SealPreCommitPhase2Output)
  | SubmitPC (index : Nat)
  | ReSubmitPC (index : Nat)
  | CheckPC (index : Nat)
  | Persist (storage_instance : String) (index : Nat)
  | SubmitPersistance (index : Nat)
  | AssignSeed (index : Nat) (seed : Seed)
  | C1 (out : List SealCommitPhase1Output)
  | C2 (index : Nat) (out : SealCommitPhase2Output)
  | SubmitProof (index : Nat)
  | ReSubmitProof (index : Nat)
  | Finish (index : Nat)

/-- `BatchPlanner::plan` (batch.rs lines 228-285), translated arm by arm.
`batch_size` is the `BatchPlanner` field used by the `ReSubmitProof` arm.
The Rust error carries the debug-printed pair; the embedding keeps only
the fixed message text. -/
def plan (batch_size : Nat) (evt : Event) (st : State) : Except String State :=
  match st, evt with
  | .Empty, .Allocate _ => .ok .Allocated
  | .Allocated, .AcquireDeals index _ | .DealsAcquired _, .AcquireDeals index _ =>
      .ok (.DealsAcquired index)
  | .DealsAcquired _, .AddPiece index _ | .PieceAdded _, .AddPiece index _ =>
      .ok (.PieceAdded index)
  | .PieceAdded _, .BuildTreeD index | .TreeDBuilt _, .BuildTreeD index =>
      .ok (.TreeDBuilt index)
  | .TreeDBuilt _, .AssignTicket _ => .ok .TicketAssigned
  | .TicketAssigned, .PC1 _ _ => .ok .PC1Done
  | .PC1Done, .PC2 _ => .ok .PC2Done
  | .PC2Done, .SubmitPC index | .PCSubmitted _, .SubmitPC index =>
      .ok (.PCSubmitted index)
  | .PCSubmitted _, .CheckPC index | .PCLanded _, .CheckPC index =>
      .ok (.PCLanded index)
  | .PCSubmitted _, .ReSubmitPC index =>
      .ok (if index > 0 then .PCSubmitted (index - 1) else .PC2Done)
  | .PCLanded _, .Persist _ index | .Persisted _, .SubmitPersistance index =>
      .ok (.Persisted index)
  | .PersistanceSubmitted _, .AssignSeed index _ | .SeedAssigned _, .AssignSeed index _ =>
      .ok (.SeedAssigned index)
  | .SeedAssigned _, .C1 _ => .ok .C1Done
  | .C1Done, .C2 index _ | .C2Done _, .C2 index _ => .ok (.C2Done index)
  | .C2Done _, .SubmitProof index | .ProofSubmitted _, .SubmitProof index =>
      .ok (.ProofSubmitted index)
  | .ProofSubmitted _, .ReSubmitProof index =>
      .ok (if index > 0 then .ProofSubmitted (index - 1) else .C2Done (batch_size - 1))
  | .ProofSubmitted _, .Finish index | .Finished _, .Finish index =>
      .ok (.Finished index)
  | _, _ => .error "unexpected state and event"

/-- The next-state selection of `Event::apply` (batch.rs line 108): a
`SetState` event overrides the planned state, every other event keeps it. -/
def Event.nextState (evt : Event) (planned : State) : State :=
  match evt with
  | .SetState s => s
  | _ => planned

/-- The no-progress guard of `Event::apply` (batch.rs lines 108-117):
`planned` is the state computed by `plan` and passed in by the driver,
`current` is `job.sectors.state`; an unchanged state is rejected. -/
def applyGuard (evt : Event) (planned : State) (current : State) : Except String Unit :=
  if Event.nextState evt planned = current then
    .error "state unchanged, may enter an infinite loop"
  else
    .ok ()

/-- The actions a `BatchSealer` can be asked to perform, one constructor
per method called from `BatchPlanner::exec`, plus the two early returns
of `exec` itself: `retNone` for `return Ok(None)` and `retAbort` for
`return Err(TaskAborted.into())`. -/
inductive ExecAction where
  | allocate
  | acquireDeals (index : Nat)
  | addPieces (index : Nat)
  | buildTreeD
  | assignTicket
  | pc1
  | pc2
  | submitPreCommit (index : Nat)
  | checkPreCommitState (index : Nat)
  | persistSectorFiles (index : Nat)
  | submitPersisted (index : Nat)
  | waitSeed (index : Nat)
  | commit1
  | commit2 (index : Nat)
  | submitProof (index : Nat)
  | checkProofState (index : Nat)
  | retNone
  | retAbort
deriving DecidableEq

/-- The dispatch of `BatchPlanner::exec` (batch.rs lines 293-322),
translated arm by arm: which action `exec` performs in each state.  The
`PieceAdded` arm keeps the source's two branches verbatim, both calling
`build_tree_d`. -/
def execDispatch (batch_size : Nat) (st : State) : ExecAction :=
  match st with
  | .Empty => .allocate
  | .Allocated => .acquireDeals 0
  | .DealsAcquired index =>
      if index < batch_size - 1 then .acquireDeals (index + 1) else .addPieces 0
  | .PieceAdded index =>
      if index < batch_size - 1 then .buildTreeD else .buildTreeD
  | .TreeDBuilt _ => .assignTicket
  | .TicketAssigned => .pc1
  | .PC1Done => .pc2
  | .PC2Done => .submitPreCommit 0
  | .PCSubmitted index =>
      if index < batch_size - 1 then .submitPreCommit (index + 1) else .checkPreCommitState 0
  | .PCLanded index =>
      if index < batch_size - 1 then .checkPreCommitState (index + 1) else .persistSectorFiles 0
  | .Persisted index =>
      if index < batch_size - 1 then .persistSectorFiles index else .submitPersisted 0
  | .PersistanceSubmitted index =>
      if index < batch_size - 1 then .submitPersisted (index + 1) else .waitSeed 0
  | .SeedAssigned index =>
      if index < batch_size - 1 then .waitSeed (index + 1) else .commit1
  | .C1Done => .commit2 0
  | .C2Done index =>
      if index < batch_size - 1 then .commit2 index else .submitProof 0
  | .ProofSubmitted index =>
      if index < batch_size - 1 then .submitProof (index + 1) else .checkProofState 0
  | .Finished index =>
      if index < batch_size - 1 then .checkProofState (index + 1) else .retNone
  | .Aborted => .retAbort

/-- A state is well formed for a batch when any sector index it carries
is in range. -/
def stateWf (batch_size : Nat) : State → Bool
  | .DealsAcquired i | .PieceAdded i | .TreeDBuilt i | .PCSubmitted i | .PCLanded i
  | .Persisted i | .PersistanceSubmitted i | .SeedAssigned i | .C2Done i
  | .ProofSubmitted i | .Finished i => i < batch_size
  | _ => true

/-- Modelled from the spec: the four-way failure taxonomy of
sealing::failure (not among the provided sources): Temporary, Permanent,
Critical, Abort; batch.rs attaches them through `.temp()`, `.perm()`,
`.crit()` and `.abort()`. -/
inductive FailureLevel where
  | temp
  | perm
  | crit
  | abort
deriving DecidableEq

/-- Modelled from the spec: a classified failure, a severity level
wrapping an error message.  The Rust messages interpolate debug-printed
values; the embedding keeps only the fixed message text. -/
structure Failure where
  level : FailureLevel
  msg : String
deriving DecidableEq

/-- Modelled from the spec: the `result_code` of a submission RPC
(rpc::sealer `SubmitResult`). -/
inductive SubmitResult where
  | Accepted
  | DuplicateSubmit
  | MismatchedSubmission
  | Rejected
  | FilesMissed
deriving DecidableEq

/-- Modelled from the spec: the `chain_state` of a polling RPC
(rpc::sealer `OnChainState`). -/
inductive OnChainState where
  | Landed
  | NotFound
  | Failed
  | PermFailed
  | ShouldAbort
  | Pending
  | Packed
deriving DecidableEq

/-- Modelled from the spec: a polling RPC response, a chain state plus an
optional description. -/
structure OnChainStateResp where
  state : OnChainState
  desc : Option String

/-- Modelled from the spec: a `wait_seed` RPC response: an optional seed,
a should-wait flag, and a delay in seconds. -/
structure WaitSeedResp where
  seed : Option Seed
  should_wait : Bool
  delay : Nat

/-- The severity level of a classified action result, `none` on success. -/
def resultLevel : Except Failure Event → Option FailureLevel
  | .error f => some f.level
  | .ok _ => none

/-- The result interpretation of `BatchSealer::submit_pre_commit`
(batch.rs lines 458-466): how the submission `result_code` is mapped once
the RPC has returned.  The earlier part of the method (sector lookup,
required pc2 fields, the RPC call itself) only produces the inputs of
this match and is not needed by the claims. -/
def submit_pre_commit_res (index : Nat) (res : SubmitResult) : Except Failure Event :=
  match res with
  | .Accepted | .DuplicateSubmit => .ok (.SubmitPC index)
  | .MismatchedSubmission => .error ⟨.perm, "MismatchedSubmission"⟩
  | .Rejected => .error ⟨.abort, "Rejected"⟩
  | .FilesMissed => .error ⟨.perm, "FilesMissed should not happen for pc2 submission"⟩

/-- The result interpretation of `BatchSealer::submit_proof` (batch.rs
lines 607-615), analogous to `submit_pre_commit_res`. -/
def submit_proof_res (index : Nat) (res : SubmitResult) : Except Failure Event :=
  match res with
  | .Accepted | .DuplicateSubmit => .ok (.SubmitProof index)
  | .MismatchedSubmission => .error ⟨.perm, "MismatchedSubmission"⟩
  | .Rejected => .error ⟨.abort, "Rejected"⟩
  | .FilesMissed => .error ⟨.perm, "FilesMissed is not handled currently"⟩

/-- Trace of one polling or waiting loop run against a given list of RPC
responses: how many poll RPCs were issued, the sleeps performed (in
seconds, in order), and the loop's result — `none` when the response list
was exhausted with the loop still running. -/
structure LoopOut where
  rpcs : Nat
  waits : List Nat
  outcome : Option (Except Failure Event)

/-- The polling loop of `BatchSealer::check_pre_commit_state` (batch.rs
lines 473-509), driven by the successive `poll_pre_commit_state`
responses: `Landed` exits the loop and the method returns `CheckPC`;
`NotFound` and `PermFailed` are permanent failures; `Failed` sleeps a
fixed 30-second cooldown and returns `ReSubmitPC`; `ShouldAbort` is an
abort failure; `Pending` and `Packed` sleep the configured polling
interval and poll again.  The cancellable sleeps are modelled as always
elapsing. -/
def check_pre_commit_loop (index interval : Nat) : List OnChainStateResp → LoopOut
  | [] => ⟨0, [], none⟩
  | r :: rest =>
    match r.state with
    | .Landed => ⟨1, [], some (.ok (.CheckPC index))⟩
    | .NotFound => ⟨1, [], some (.error ⟨.perm, "pre commit on-chain info not found"⟩)⟩
    | .Failed => ⟨1, [30], some (.ok (.ReSubmitPC index))⟩
    | .PermFailed => ⟨1, [], some (.error ⟨.perm, "pre commit on-chain info permanent failed"⟩)⟩
    | .ShouldAbort => ⟨1, [], some (.error ⟨.abort, "pre commit info will not get on-chain"⟩)⟩
    | .Pending | .Packed =>
      let o := check_pre_commit_loop index interval rest
      ⟨o.rpcs + 1, interval :: o.waits, o.outcome⟩

/-- `BatchSealer::check_pre_commit_state` (batch.rs lines 469-510):
sector lookup and base requirement (both critical on failure), then the
polling loop.  `sector` is the result of `job.sector(index)` followed by
the `base` field: `none` models an out-of-bounds index, `some none` a
sector with no base. -/
def check_pre_commit_state (index : Nat) (sector : Option (Option Base)) (interval : Nat)
    (polls : List OnChainStateResp) : LoopOut :=
  match sector with
  | none => ⟨0, [], some (.error ⟨.crit, "sector index out of bounds"⟩)⟩
  | some none => ⟨0, [], some (.error ⟨.crit, "context"⟩)⟩
  | some (some _) => check_pre_commit_loop index interval polls

/-- The polling loop of `BatchSealer::check_proof_state` (batch.rs lines
623-655), driven by the successive `poll_proof_state` responses; on
`Landed` the loop exits and the method returns `Finish`; `Failed` sleeps
the fixed 30-second cooldown and returns `ReSubmitProof`. -/
def check_proof_loop (index interval : Nat) : List OnChainStateResp → LoopOut
  | [] => ⟨0, [], none⟩
  | r :: rest =>
    match r.state with
    | .Landed => ⟨1, [], some (.ok (.Finish index))⟩
    | .NotFound => ⟨1, [], some (.error ⟨.perm, "proof on-chain info not found"⟩)⟩
    | .Failed => ⟨1, [30], some (.ok (.ReSubmitProof index))⟩
    | .PermFailed => ⟨1, [], some (.error ⟨.perm, "proof on-chain info permanent failed"⟩)⟩
    | .ShouldAbort => ⟨1, [], some (.error ⟨.abort, "sector will not get on-chain"⟩)⟩
    | .Pending | .Packed =>
      let o := check_proof_loop index interval rest
      ⟨o.rpcs + 1, interval :: o.waits, o.outcome⟩

/-- `BatchSealer::check_proof_state` (batch.rs lines 618-669): sector
lookup and base requirement (both critical on failure); then, unless the
`ignore_proof_check` configuration flag is set, the polling loop; with
the flag set the loop is skipped entirely and the method returns
`Finish` at once, issuing no poll RPC. -/
def check_proof_state (index : Nat) (ignore_proof_check : Bool) (sector : Option (Option Base))
    (interval : Nat) (polls : List OnChainStateResp) : LoopOut :=
  match sector with
  | none => ⟨0, [], some (.error ⟨.crit, "sector index out of bounds"⟩)⟩
  | some none => ⟨0, [], some (.error ⟨.crit, "sector base required"⟩)⟩
  | some (some _) =>
    if ignore_proof_check then ⟨0, [], some (.ok (.Finish index))⟩
    else check_proof_loop index interval polls

/-- The waiting loop of `BatchSealer::wait_seed` (batch.rs lines 557-575),
driven by the successive `wait_seed` RPC responses: a response carrying a
seed breaks the loop with `AssignSeed`; otherwise, no seed with
`should_wait` unset or a zero delay is a temporary failure; otherwise the
loop sleeps the indicated delay and polls again. -/
def wait_seed_loop (index : Nat) : List WaitSeedResp → LoopOut
  | [] => ⟨0, [], none⟩
  | r :: rest =>
    match r.seed with
    | some s => ⟨1, [], some (.ok (.AssignSeed index s))⟩
    | none =>
      if !r.should_wait || r.delay == 0 then
        ⟨1, [], some (.error ⟨.temp, "invalid empty wait_seed response"⟩)⟩
      else
        let o := wait_seed_loop index rest
        ⟨o.rpcs + 1, r.delay :: o.waits, o.outcome⟩

/-- `BatchSealer::wait_seed` (batch.rs lines 553-578): sector lookup and
base requirement (both critical on failure), then the waiting loop. -/
def wait_seed (index : Nat) (sector : Option (Option Base)) (responses : List WaitSeedResp) :
    LoopOut :=
  match sector with
  | none => ⟨0, [], some (.error ⟨.crit, "sector index out of bounds"⟩)⟩
  | some none => ⟨0, [], some (.error ⟨.crit, "sector base required"⟩)⟩
  | some (some _) => wait_seed_loop index responses

/-- The declared (state, event) pairs of the planner, written from
section 4.1 of the specification: the pipeline order, the indexed-phase
acceptance rule (an indexed phase's event is accepted at the same phase's
state or at the state the pipeline lists just before it), and the two
resubmission events accepted at their submission states.  Kept separate
from `plan` so that `plan`'s domain can be compared against the spec's
table. -/
def declaredSpec (st : State) (evt : Event) : Bool :=
  match st, evt with
  | .Empty, .Allocate _ => true
  | .Allocated, .AcquireDeals _ _ => true
  | .DealsAcquired _, .AcquireDeals _ _ => true
  | .DealsAcquired _, .AddPiece _ _ => true
  | .PieceAdded _, .AddPiece _ _ => true
  | .PieceAdded _, .BuildTreeD _ => true
  | .TreeDBuilt _, .BuildTreeD _ => true
  | .TreeDBuilt _, .AssignTicket _ => true
  | .TicketAssigned, .PC1 _ _ => true
  | .PC1Done, .PC2 _ => true
  | .PC2Done, .SubmitPC _ => true
  | .PCSubmitted _, .SubmitPC _ => true
  | .PCSubmitted _, .CheckPC _ => true
  | .PCSubmitted _, .ReSubmitPC _ => true
  | .PCLanded _, .CheckPC _ => true
  | .PCLanded _, .Persist _ _ => true
  | .Persisted _, .SubmitPersistance _ => true
  | .PersistanceSubmitted _, .AssignSeed _ _ => true
  | .SeedAssigned _, .AssignSeed _ _ => true
  | .SeedAssigned _, .C1 _ => true
  | .C1Done, .C2 _ _ => true
  | .C2Done _, .C2 _ _ => true
  | .C2Done _, .SubmitProof _ => true
  | .ProofSubmitted _, .SubmitProof _ => true
  | .ProofSubmitted _, .ReSubmitProof _ => true
  | .ProofSubmitted _, .Finish _ => true
  | .Finished _, .Finish _ => true
  | _, _ => false

/-- C3: for every index i, `plan` maps `(PCSubmitted, ReSubmitPC i)` to
`PCSubmitted (i-1)` when `i > 0` and to `PC2Done` when `i = 0`, and maps
`(ProofSubmitted, ReSubmitProof i)` to `ProofSubmitted (i-1)` when
`i > 0` and to `C2Done (batch_size - 1)` when `i = 0`; no index
underflow occurs. -/
theorem c3_resubmit_rollback (batch_size i j : Nat) :
    (0 < i → plan batch_size (.ReSubmitPC i) (.PCSubmitted j) = .ok (.PCSubmitted (i - 1)))
    ∧ plan batch_size (.ReSubmitPC 0) (.PCSubmitted j) = .ok .PC2Done
    ∧ (0 < i → plan batch_size (.ReSubmitProof i) (.ProofSubmitted j)
        = .ok (.ProofSubmitted (i - 1)))
    ∧ plan batch_size (.ReSubmitProof 0) (.ProofSubmitted j)
        = .ok (.C2Done (batch_size - 1)) := by
  refine ⟨fun h => ?_, rfl, fun h => ?_, rfl⟩
  · exact congrArg Except.ok (if_pos h)
  · exact congrArg Except.ok (if_pos h)

/-- Witness for C3: the rollback transitions evaluated at batch size 3. -/
theorem c3_resubmit_rollback_witness :
    plan 3 (.ReSubmitPC 2) (.PCSubmitted 2) = .ok (.PCSubmitted 1)
    ∧ plan 3 (.ReSubmitProof 1) (.ProofSubmitted 0) = .ok (.ProofSubmitted 0) :=
  ⟨(c3_resubmit_rollback 3 2 2).1 (by decide),
   (c3_resubmit_rollback 3 1 0).2.2.1 (by decide)⟩

/-- C4, counterexample: `plan` can return a next state equal to its input
state — a repeat `AcquireDeals` event at the same index reproduces the
current `DealsAcquired` state — so the claim that `plan` never returns
the input state is false; only the `Event::apply` guard rejects such a
step. -/
theorem c4_plan_can_return_input_state :
    plan 3 (.AcquireDeals 0 none) (.DealsAcquired 0) = .ok (.DealsAcquired 0) := rfl

/-- C4, amended: a transition whose effective next state (the planned
state, or the `SetState` payload) equals the current batch state is
rejected by the `Event::apply` guard with a state-unchanged error, so no
successfully applied step leaves the state unchanged. -/
theorem c4_apply_guard_no_unchanged_state (evt : Event) (planned current : State)
    (h : applyGuard evt planned current = .ok ()) : Event.nextState evt planned ≠ current := by
  intro he
  simp [applyGuard, he] at h

/-- Witness for C4: the guard accepts a genuinely changed state, here the
`Idle` event with planned state `Allocated` over current state `Empty`. -/
theorem c4_apply_guard_witness : Event.nextState .Idle .Allocated ≠ .Empty :=
  c4_apply_guard_no_unchanged_state .Idle .Allocated .Empty (by simp [applyGuard, Event.nextState])

/-- C6: `submit_pre_commit` and `submit_proof` interpret every submission
result code the same way: `Accepted` and `DuplicateSubmit` both yield the
phase's success event at the same index, `MismatchedSubmission` a
permanent failure, `Rejected` an abort failure, `FilesMissed` a permanent
failure. -/
theorem c6_submit_result_classification (i : Nat) :
    submit_pre_commit_res i .Accepted = .ok (.SubmitPC i)
    ∧ submit_pre_commit_res i .DuplicateSubmit = .ok (.SubmitPC i)
    ∧ resultLevel (submit_pre_commit_res i .MismatchedSubmission) = some .perm
    ∧ resultLevel (submit_pre_commit_res i .Rejected) = some .abort
    ∧ resultLevel (submit_pre_commit_res i .FilesMissed) = some .perm
    ∧ submit_proof_res i .Accepted = .ok (.SubmitProof i)
    ∧ submit_proof_res i .DuplicateSubmit = .ok (.SubmitProof i)
    ∧ resultLevel (submit_proof_res i .MismatchedSubmission) = some .perm
    ∧ resultLevel (submit_proof_res i .Rejected) = some .abort
    ∧ resultLevel (submit_proof_res i .FilesMissed) = some .perm :=
  ⟨rfl, rfl, rfl, rfl, rfl, rfl, rfl, rfl, rfl, rfl⟩

/-- C9: `wait_seed` breaks its loop with `AssignSeed` as soon as a
response carries a seed; a seedless response with `should_wait` unset or
a zero delay — in particular seed none, should-wait true, delay 0 — is a
temporary failure with the invalid-empty-response message; a seedless
response with `should_wait` set and a positive delay sleeps that delay
and polls again. -/
theorem c9_wait_seed_loop (index d : Nat) (b : Base) (s : Seed) (sw : Bool)
    (rest : List WaitSeedResp) :
    wait_seed index (some (some b)) (⟨some s, sw, d⟩ :: rest)
        = ⟨1, [], some (.ok (.AssignSeed index s))⟩
    ∧ wait_seed index (some (some b)) (⟨none, false, d⟩ :: rest)
        = ⟨1, [], some (.error ⟨.temp, "invalid empty wait_seed response"⟩)⟩
    ∧ wait_seed index (some (some b)) (⟨none, sw, 0⟩ :: rest)
        = ⟨1, [], some (.error ⟨.temp, "invalid empty wait_seed response"⟩)⟩
    ∧ wait_seed index (some (some b)) (⟨none, true, d + 1⟩ :: rest)
        = ⟨(wait_seed_loop index rest).rpcs + 1, (d + 1) :: (wait_seed_loop index rest).waits,
           (wait_seed_loop index rest).outcome⟩ := by
  refine ⟨rfl, rfl, ?_, rfl⟩
  cases sw <;> rfl

/-- C10: with the `ignore_proof_check` configuration flag set,
`check_proof_state` issues no poll RPC, performs no sleep and returns the
`Finish` event at once, for every possible sequence of poll responses;
the sector lookup and its base-field requirement are still checked and
fail critically. -/
theorem c10_ignore_proof_check (index interval : Nat) (b : Base)
    (polls : List OnChainStateResp) :
    check_proof_state index true (some (some b)) interval polls
        = ⟨0, [], some (.ok (.Finish index))⟩
    ∧ (check_proof_state index true none interval polls).outcome
        = some (.error ⟨.crit, "sector index out of bounds"⟩)
    ∧ (check_proof_state index true (some none) interval polls).outcome
        = some (.error ⟨.crit, "sector base required"⟩) :=
  ⟨rfl, rfl, rfl⟩

/-- C1: evaluation of the exec dispatch at batch size 3 showing where the
claimed index-advance rule breaks: at `PieceAdded 0` the dispatch already
performs the next phase's `build_tree_d` instead of the same phase's
action on sector 1, at `Persisted 0` and `C2Done 0` it repeats the same
phase's action on sector 0 instead of sector 1; the final conjunct shows
the rule holding at `DealsAcquired 0` for contrast. -/
theorem c1_exec_dispatch_deviations :
    execDispatch 3 (.PieceAdded 0) = .buildTreeD
    ∧ execDispatch 3 (.Persisted 0) = .persistSectorFiles 0
    ∧ execDispatch 3 (.C2Done 0) = .commit2 0
    ∧ execDispatch 3 (.DealsAcquired 0) = .acquireDeals 1 :=
  ⟨rfl, rfl, rfl, rfl⟩

/-- C2: evaluation showing the persistence-submission bug: `plan` maps
`(Persisted 0, SubmitPersistance 0)` back to `Persisted 0` — the very
state the apply guard then rejects as unchanged — and no (state, event)
pair at all produces `PersistanceSubmitted`, although the state is
declared and the exec dispatch handles it. -/
theorem c2_submit_persistance_unreachable :
    plan 3 (.SubmitPersistance 0) (.Persisted 0) = .ok (.Persisted 0)
    ∧ ∀ (batch_size : Nat) (evt : Event) (st : State) (i : Nat),
        plan batch_size evt st ≠ .ok (.PersistanceSubmitted i) := by
  refine ⟨rfl, ?_⟩
  intro batch_size evt st i h
  cases evt <;> cases st <;>
    first
      | exact Except.noConfusion h
      | (injection h with h2; exact State.noConfusion h2)
      | (injection h with h2; split at h2 <;> exact State.noConfusion h2)

/-- C5: `plan` is total and deterministic on the declared (state, event)
pairs and fails with the unexpected-state-and-event error on every other
pair: its success domain coincides exactly with the spec's declared
transition table. -/
theorem c5_plan_total_on_declared (batch_size : Nat) (evt : Event) (st : State) :
    (declaredSpec st evt = true → ∃ s, plan batch_size evt st = .ok s)
    ∧ (declaredSpec st evt = false →
        plan batch_size evt st = .error "unexpected state and event") := by
  cases evt <;> cases st <;>
    first
      | exact ⟨fun _ => ⟨_, rfl⟩, fun hf => Bool.noConfusion hf⟩
      | exact ⟨fun ht => Bool.noConfusion ht, fun _ => rfl⟩

/-- Witness for C5: a declared pair succeeds and an undeclared pair fails
with the unexpected-state-and-event error, evaluated at batch size 3. -/
theorem c5_plan_total_on_declared_witness :
    (∃ s, plan 3 (.SubmitPC 1) .PC2Done = .ok s)
    ∧ plan 3 (.SubmitPC 1) .Empty = .error "unexpected state and event" :=
  ⟨(c5_plan_total_on_declared 3 (.SubmitPC 1) .PC2Done).1 rfl,
   (c5_plan_total_on_declared 3 (.SubmitPC 1) .Empty).2 rfl⟩

/-- C7: the pre-commit and proof polling loops map each head poll outcome
identically: `Landed` exits with the success event (`CheckPC` resp.
`Finish`), `NotFound` is a permanent failure, `Failed` sleeps the fixed
30-second cooldown and returns the resubmit event (`ReSubmitPC` resp.
`ReSubmitProof`), `PermFailed` is a permanent failure, `ShouldAbort` is
an abort failure, and `Pending` and `Packed` sleep the configured polling
interval and poll again. -/
theorem c7_polling_protocol (index interval : Nat) (b : Base) (desc : Option String)
    (rest : List OnChainStateResp) :
    check_pre_commit_state index (some (some b)) interval (⟨.Landed, desc⟩ :: rest)
        = ⟨1, [], some (.ok (.CheckPC index))⟩
    ∧ check_proof_state index false (some (some b)) interval (⟨.Landed, desc⟩ :: rest)
        = ⟨1, [], some (.ok (.Finish index))⟩
    ∧ check_pre_commit_state index (some (some b)) interval (⟨.NotFound, desc⟩ :: rest)
        = ⟨1, [], some (.error ⟨.perm, "pre commit on-chain info not found"⟩)⟩
    ∧ check_proof_state index false (some (some b)) interval (⟨.NotFound, desc⟩ :: rest)
        = ⟨1, [], some (.error ⟨.perm, "proof on-chain info not found"⟩)⟩
    ∧ check_pre_commit_state index (some (some b)) interval (⟨.Failed, desc⟩ :: rest)
        = ⟨1, [30], some (.ok (.ReSubmitPC index))⟩
    ∧ check_proof_state index false (some (some b)) interval (⟨.Failed, desc⟩ :: rest)
        = ⟨1, [30], some (.ok (.ReSubmitProof index))⟩
    ∧ check_pre_commit_state index (some (some b)) interval (⟨.PermFailed, desc⟩ :: rest)
        = ⟨1, [], some (.error ⟨.perm, "pre commit on-chain info permanent failed"⟩)⟩
    ∧ check_proof_state index false (some (some b)) interval (⟨.PermFailed, desc⟩ :: rest)
        = ⟨1, [], some (.error ⟨.perm, "proof on-chain info permanent failed"⟩)⟩
    ∧ check_pre_commit_state index (some (some b)) interval (⟨.ShouldAbort, desc⟩ :: rest)
        = ⟨1, [], some (.error ⟨.abort, "pre commit info will not get on-chain"⟩)⟩
    ∧ check_proof_state index false (some (some b)) interval (⟨.ShouldAbort, desc⟩ :: rest)
        = ⟨1, [], some (.error ⟨.abort, "sector will not get on-chain"⟩)⟩
    ∧ check_pre_commit_state index (some (some b)) interval (⟨.Pending, desc⟩ :: rest)
        = ⟨(check_pre_commit_loop index interval rest).rpcs + 1,
           interval :: (check_pre_commit_loop index interval rest).waits,
           (check_pre_commit_loop index interval rest).outcome⟩
    ∧ check_pre_commit_state index (some (some b)) interval (⟨.Packed, desc⟩ :: rest)
        = ⟨(check_pre_commit_loop index interval rest).rpcs + 1,
           interval :: (check_pre_commit_loop index interval rest).waits,
           (check_pre_commit_loop index interval rest).outcome⟩
    ∧ check_proof_state index false (some (some b)) interval (⟨.Pending, desc⟩ :: rest)
        = ⟨(check_proof_loop index interval rest).rpcs + 1,
           interval :: (check_proof_loop index interval rest).waits,
           (check_proof_loop index interval rest).outcome⟩
    ∧ check_proof_state index false (some (some b)) interval (⟨.Packed, desc⟩ :: rest)
        = ⟨(check_proof_loop index interval rest).rpcs + 1,
           interval :: (check_proof_loop index interval rest).waits,
           (check_proof_loop index interval rest).outcome⟩ :=
  ⟨rfl, rfl, rfl, rfl, rfl, rfl, rfl, rfl, rfl, rfl, rfl, rfl, rfl, rfl⟩

/-- C8: over well-formed states of a nonempty batch, the exec dispatch
returns no event exactly in state `Finished (batch_size - 1)`, and in
state `Aborted` it returns the abort failure unconditionally, performing
no action. -/
theorem c8_exec_terminal (batch_size : Nat) (st : State) (hbs : 1 ≤ batch_size)
    (hwf : stateWf batch_size st = true) :
    (execDispatch batch_size st = .retNone ↔ st = .Finished (batch_size - 1))
    ∧ execDispatch batch_size .Aborted = .retAbort := by
  refine ⟨?_, rfl⟩
  cases st <;> simp only [execDispatch] <;> (try split) <;> simp_all [stateWf] <;> omega

/-- Witness for C8: at batch size 3, the dispatch returns no event in
state `Finished 2`. -/
theorem c8_exec_terminal_witness : execDispatch 3 (.Finished 2) = .retNone :=
  (c8_exec_terminal 3 (.Finished 2) (by decide) (by decide)).1.mpr rfl

end Batch
